import Mathlib

/-!
Verification development for sphinxcontrib.mscgen (a Sphinx extension that
renders embedded mscgen message-sequence charts to image files via an
external renderer subprocess).

The Python module is shallowly embedded: the subprocess and the optional
cairosvg conversion are abstracted as an environment of pure functions, the
filesystem writes and body fragments appended by the docutils visitors are
collected in explicit outcome records, and Python exceptions become an
explicit error type threaded through `Except`.
-/

namespace Mscgen

/-- Result of a subprocess that did start: exit status, bytes written to
stdout, and the text captured from stderr. -/
structure ProcResult where
  returncode : Int
  stdout : List Nat
  stderr : String
deriving DecidableEq

/-- Outcome of attempting `Popen`: either the process started and ran to
completion with a `ProcResult`, or the executable could not be started
(`OSError` in Python: not found, not executable, permissions). -/
inductive ProcSpawn where
  | ok (res : ProcResult)
  | oserror
deriving DecidableEq

/-- The Python exceptions the embedded code can raise. `mscgenError` is the
module's own `MscgenError(SphinxError)`; `nameError` is raised when an
undefined name (here the misspelling `MscGenError`) is referenced;
`osError` is a re-raised `Popen` failure; `unicodeEncodeError` comes from
`str.encode` on text not representable in the target encoding. -/
inductive PyError where
  | mscgenError (msg : String)
  | nameError (missing : String)
  | osError
  | unicodeEncodeError
deriving DecidableEq

/-- The extension's three configuration values, with Python defaults
`mscgen = 'mscgen'`, `mscgen_args = []`, `mscgen_js = None`. -/
structure Config where
  mscgen : String
  mscgen_args : List String
  mscgen_js : Option String

/-- The relevant state of the active Sphinx builder: output directory,
optional image subdirectory (`None` models a builder without an `imgpath`
attribute, `some ""` a falsy one), and the formats it supports. -/
structure Builder where
  outdir : String
  imgpath : Option String
  supported_image_types : List String

/-- The ambient environment: what spawning the renderer with a given argv
does, the `cairosvg.svg2pdf` conversion, and whether the optional
cairosvg module was importable at load time. -/
structure Env where
  spawn : List String → ProcSpawn
  svg2pdf : List Nat → List Nat
  cairosvg_available : Bool

/-- The module-level `preferred_formats` list: it contains
`application/pdf` exactly when the `import cairosvg` at module load time
succeeded. -/
def preferred_formats (cairo : Bool) : List String :=
  if cairo then ["image/svg+xml", "application/pdf", "image/png"]
  else ["image/svg+xml", "image/png"]

/-- The `for fmt in preferred_formats: if fmt in supported: return fmt`
loop body of `determine_format`. -/
def find_format (supported : List String) : List String → Option String
  | [] => none
  | fmt :: rest => if fmt ∈ supported then some fmt else find_format supported rest

/-- `determine_format(supported)`: first preferred format that is a member
of `supported`, else `None`. -/
def determine_format (cairo : Bool) (supported : List String) : Option String :=
  find_format supported (preferred_formats cairo)

/-- ISO-8859-1 (`code.encode('iso-8859-1')`): one byte per character, the
character's code point; raises `UnicodeEncodeError` (here: `none`) when a
character is outside the 0..255 repertoire. -/
def latin1Encode (s : String) : Option (List Nat) :=
  if ∀ c ∈ s.data, c.toNat < 256 then some (s.data.map Char.toNat) else none

/-- UTF-8 encoding of one code point, for contrasting with ISO-8859-1. -/
def utf8EncodeCp (n : Nat) : List Nat :=
  if n < 128 then [n]
  else if n < 2048 then [192 + n / 64, 128 + n % 64]
  else if n < 65536 then [224 + n / 4096, 128 + (n / 64) % 64, 128 + n % 64]
  else [240 + n / 262144, 128 + (n / 4096) % 64, 128 + (n / 64) % 64, 128 + n % 64]

/-- UTF-8 encoding of a string, for contrasting with ISO-8859-1. -/
def utf8Encode (s : String) : List Nat :=
  s.data.flatMap (fun c => utf8EncodeCp c.toNat)

/-- The argv built by `render_msc_native`:
`[config.mscgen] + config.mscgen_args + ['-T', fmt, '-o', '-']`. -/
def mscgenArgv (cfg : Config) (fmt : String) : List String :=
  cfg.mscgen :: (cfg.mscgen_args ++ ["-T", fmt, "-o", "-"])

/-- The literal template passed to `.format` when the renderer exits
non-zero. Its placeholders are %-style, so `str.format` leaves them alone. -/
def errMsgTemplate : String :=
  "Cannot render the following mscgen code:\n%s\n\nError: %s"

/-- CPython `str.format` field scanning: outside a replacement field,
characters are copied verbatim; a character with code 123 opens a field,
whose spec is consumed up to the character with code 125, where the next
positional argument (its text) is substituted. On a template containing no
field braces — such as `errMsgTemplate` — the arguments are ignored and the
template is returned unchanged, which is exactly CPython's behavior. -/
def pyFormatGo : List Char → Bool → List String → List Char
  | [], _, _ => []
  | c :: rest, true, args =>
    if c.toNat = 125 then
      match args with
      | [] => pyFormatGo rest false []
      | a :: more => a.data ++ pyFormatGo rest false more
    else pyFormatGo rest true args
  | c :: rest, false, args =>
    if c.toNat = 123 then pyFormatGo rest true args
    else c :: pyFormatGo rest false args

/-- `template.format(*args)` for positional-only replacement fields. -/
def pyFormat (template : String) (args : List String) : String :=
  String.mk (pyFormatGo template.data false args)

/-- What one call to `render_msc_native` did: the argv of the `Popen` call
it made, the bytes it fed to the process's stdin (none when encoding the
source failed or the process never started), and the returned stdout bytes
or the exception raised. -/
structure NativeOutcome where
  popenCalls : List (List String)
  fedStdin : Option (List Nat)
  result : Except PyError (List Nat)

/-- `render_msc_native(self, code, fmt)`: build argv, `Popen` (a failure to
start re-raises the bare `OSError`), feed `code.encode('iso-8859-1')` to
stdin, and on a non-zero exit status raise
`MscgenError('...%s...%s'.format(code, err))` — the template has no
`format` fields, so the message is the unchanged template. On exit status
zero, return the stdout bytes unchanged. -/
def render_msc_native (env : Env) (cfg : Config) (code : String) (fmt : String) :
    NativeOutcome :=
  let argv := mscgenArgv cfg fmt
  match env.spawn argv with
  | ProcSpawn.oserror => ⟨[argv], none, Except.error PyError.osError⟩
  | ProcSpawn.ok res =>
    match latin1Encode code with
    | none => ⟨[argv], none, Except.error PyError.unicodeEncodeError⟩
    | some bytes =>
      if res.returncode ≠ 0 then
        ⟨[argv], some bytes,
          Except.error (PyError.mscgenError (pyFormat errMsgTemplate [code, res.stderr]))⟩
      else ⟨[argv], some bytes, Except.ok res.stdout⟩

/-- `os.path.join` for the shapes this module produces (second component
never absolute, first never slash-terminated unless empty). -/
def pathJoin (a b : String) : String :=
  if a = "" then b else a ++ "/" ++ b

/-- What one call to `render_msc` did: `Popen` calls made, files written
(path and bytes), and the returned `(bname, ext)` pair or the exception
raised. -/
structure RenderOutcome where
  popenCalls : List (List String)
  filesWritten : List (String × List Nat)
  result : Except PyError (String × String)

/-- `render_msc(self, code, outpath, fmt)`: basename `mscgen-<uuid4>`; PNG
is rendered natively and written directly; otherwise SVG is rendered
natively, then written directly (svg), converted via `cairosvg.svg2pdf`
(pdf), or — for any other format value, `None` included — the code reaches
`raise MscGenError(...)`, a reference to an undefined name, so Python
raises `NameError` before any file is written. -/
def render_msc (env : Env) (cfg : Config) (code : String) (outpath : String)
    (uuid : String) (fmt : Option String) : RenderOutcome :=
  let bname := "mscgen-" ++ uuid
  if fmt = some "image/png" then
    let n := render_msc_native env cfg code "png"
    match n.result with
    | Except.error e => ⟨n.popenCalls, [], Except.error e⟩
    | Except.ok png =>
      ⟨n.popenCalls, [(pathJoin outpath (bname ++ ".png"), png)], Except.ok (bname, "png")⟩
  else
    let n := render_msc_native env cfg code "svg"
    match n.result with
    | Except.error e => ⟨n.popenCalls, [], Except.error e⟩
    | Except.ok svg =>
      if fmt = some "image/svg+xml" then
        ⟨n.popenCalls, [(pathJoin outpath (bname ++ ".svg"), svg)], Except.ok (bname, "svg")⟩
      else if fmt = some "application/pdf" then
        ⟨n.popenCalls, [(pathJoin outpath (bname ++ ".pdf"), env.svg2pdf svg)],
          Except.ok (bname, "pdf")⟩
      else ⟨n.popenCalls, [], Except.error (PyError.nameError "MscGenError")⟩

/-- The docutils `Translator.encode` special-character escaping applied to
one character. -/
def encodeChar (c : Char) : String :=
  if c = '&' then "&amp;"
  else if c = '<' then "&lt;"
  else if c = '"' then "&quot;"
  else if c = '>' then "&gt;"
  else if c = '@' then "&#64;"
  else if c.toNat = 160 then "&nbsp;"
  else if c.toNat = 8209 then "&#x2011;"
  else String.singleton c

/-- `self.encode(text)`: docutils HTML special-character escaping. -/
def encode (text : String) : String :=
  String.join (text.data.map encodeChar)

/-- `self.starttag(node, tag, **attrs)` as docutils emits it for the tags
this module opens: tag with its attributes in docutils order, newline
suffix. -/
def starttag (tag : String) (attrs : List (String × String)) : String :=
  "<" ++ tag ++ String.join (attrs.map (fun p => " " ++ p.1 ++ "=\"" ++ p.2 ++ "\"")) ++ ">\n"

/-- What one visitor call did: `Popen` calls, files written, body fragments
appended to the translator, and normal completion (`SkipNode`) or the
exception raised. -/
structure VisitOutcome where
  popenCalls : List (List String)
  filesWritten : List (String × List Nat)
  body : List String
  result : Except PyError Unit

/-- The `imgpath` used by `render_msc_html`: the builder's `imgpath` when
present and truthy, else `'.'`. -/
def effectiveImgpath (b : Builder) : String :=
  match b.imgpath with
  | some p => if p = "" then "." else p
  | none => "."

/-- `render_msc_html(self, node, code)`: render into
`outdir/imgpath`, then append a `<p class="mscgen">` start tag, an `<img>`
whose `src` joins `imgpath` with the basename and extension and whose
`alt` is the escaped, stripped source, and a closing `</p>`. -/
def render_msc_html (env : Env) (cfg : Config) (b : Builder) (code : String)
    (uuid : String) : VisitOutcome :=
  let imgpath := effectiveImgpath b
  let outdir := pathJoin b.outdir imgpath
  let r := render_msc env cfg code outdir uuid
    (determine_format env.cairosvg_available b.supported_image_types)
  match r.result with
  | Except.error e => ⟨r.popenCalls, r.filesWritten, [], Except.error e⟩
  | Except.ok (fn, ext) =>
    ⟨r.popenCalls, r.filesWritten,
      [starttag "p" [("class", "mscgen")],
       "<img src=\"" ++ pathJoin imgpath fn ++ "." ++ ext ++ "\" alt=\""
         ++ (encode code).trim ++ "\"/>\n",
       "</p>\n"],
      Except.ok ()⟩

/-- `render_msc_html_js(self, node, code)`: no subprocess, no file; a
`<script type="text/x-mscgen" data-named-style="classic">` start tag, the
escaped source, and the closing tag. -/
def render_msc_html_js (code : String) : VisitOutcome :=
  ⟨[], [],
    [starttag "script" [("data-named-style", "classic"), ("type", "text/x-mscgen")],
     encode code, "</script>"],
    Except.ok ()⟩

/-- `html_visit_mscgen(self, node)`: dispatch on whether the `mscgen_js`
configuration value is set. -/
def html_visit_mscgen (env : Env) (cfg : Config) (b : Builder) (code : String)
    (uuid : String) : VisitOutcome :=
  if cfg.mscgen_js ≠ none then render_msc_html_js code
  else render_msc_html env cfg b code uuid

/-- `render_msc_latex(self, code)`: render into the builder's `outdir`,
then append the include-graphics line built by
`'\n\\noindent\\sphinxincludegraphics\x7b\x7b%s\x7d.%s\x7d\n' % (fn, ext)`
(%-formatting copies the brace characters through verbatim). -/
def render_msc_latex (env : Env) (cfg : Config) (b : Builder) (code : String)
    (uuid : String) : VisitOutcome :=
  let r := render_msc env cfg code b.outdir uuid
    (determine_format env.cairosvg_available b.supported_image_types)
  match r.result with
  | Except.error e => ⟨r.popenCalls, r.filesWritten, [], Except.error e⟩
  | Except.ok (fn, ext) =>
    ⟨r.popenCalls, r.filesWritten,
      ["\n\\noindent\\sphinxincludegraphics\x7b\x7b" ++ fn ++ "\x7d." ++ ext ++ "\x7d\n"],
      Except.ok ()⟩

/-- `latex_visit_mscgen(self, node)`: unconditionally renders; `mscgen_js`
is never consulted on the LaTeX path. -/
def latex_visit_mscgen (env : Env) (cfg : Config) (b : Builder) (code : String)
    (uuid : String) : VisitOutcome :=
  render_msc_latex env cfg b code uuid

/-- The placeholder node: its only essential attribute is `node['code']`. -/
structure MscNode where
  code : String
deriving DecidableEq

/-- `Mscgen.run`: one node whose code is `'\n'.join(self.content)`. -/
def Mscgen_run (content : List String) : List MscNode :=
  [⟨String.intercalate "\n" content⟩]

/-- `MscgenSimple.run`: one node whose code is
`'msc \x7b\n%s\n\x7d\n' % ('\n'.join(self.content))`. -/
def MscgenSimple_run (content : List String) : List MscNode :=
  [⟨"msc \x7b\n" ++ String.intercalate "\n" content ++ "\n\x7d\n"⟩]

/-- An environment whose renderer always succeeds with stdout `[7]`, with
cairosvg unavailable. -/
def okEnv : Env := ⟨fun _ => ProcSpawn.ok ⟨0, [7], ""⟩, id, false⟩

/-- An environment whose renderer always exits with status 1 and stderr
`"bad syntax"`. -/
def badSyntaxEnv : Env := ⟨fun _ => ProcSpawn.ok ⟨1, [], "bad syntax"⟩, id, false⟩

/-- An environment in which the renderer executable cannot be started. -/
def oserrorEnv : Env := ⟨fun _ => ProcSpawn.oserror, id, false⟩

/-- The default configuration: `mscgen = 'mscgen'`, no extra arguments,
`mscgen_js` unset. -/
def plainConfig : Config := ⟨"mscgen", [], none⟩

/-- A configuration with the `mscgen_js` script-include value set. -/
def jsConfig : Config := ⟨"mscgen", [], some "mscgen-inpage.js"⟩

/-- A typeset builder supporting only PNG, with no image subdirectory. -/
def pngBuilder : Builder := ⟨"/build/latex", none, ["image/png"]⟩

/-- A builder supporting SVG and PNG, with no image subdirectory. -/
def svgBuilder : Builder := ⟨"/build/latex", none, ["image/svg+xml", "image/png"]⟩

/-- Modelled from the spec reading of `determine_format` (fixed preference
order, first member of the supported list wins), stated as nested
conditionals for comparison with the loop in the source. -/
def determine_format_pref_spec (cairo : Bool) (supported : List String) : Option String :=
  if "image/svg+xml" ∈ supported then some "image/svg+xml"
  else if cairo = true ∧ "application/pdf" ∈ supported then some "application/pdf"
  else if "image/png" ∈ supported then some "image/png"
  else none

theorem determine_format_eq_pref_spec (cairo : Bool) (supported : List String) :
    determine_format cairo supported = determine_format_pref_spec cairo supported := by
  cases cairo <;>
    simp [determine_format, preferred_formats, find_format, determine_format_pref_spec]

theorem determine_format_none_iff (cairo : Bool) (supported : List String) :
    determine_format cairo supported = none ↔
      ∀ f ∈ preferred_formats cairo, f ∉ supported := by
  cases cairo <;>
    simp only [determine_format, preferred_formats, find_format, Bool.false_eq_true,
      if_false, if_true, List.mem_cons, List.mem_singleton, List.not_mem_nil] <;>
    split_ifs <;> simp_all

theorem pyFormatGo_no_fields (cs : List Char) (args : List String)
    (h : ∀ c ∈ cs, c.toNat ≠ 123) : pyFormatGo cs false args = cs := by
  induction cs with
  | nil => rfl
  | cons c rest ih =>
    have hc : c.toNat ≠ 123 := h c (List.mem_cons_self _ _)
    simp only [pyFormatGo, if_neg hc]
    rw [ih fun d hd => h d (List.mem_cons_of_mem _ hd)]

theorem pyFormat_errMsgTemplate (args : List String) :
    pyFormat errMsgTemplate args = errMsgTemplate := by
  have h : ∀ c ∈ errMsgTemplate.data, c.toNat ≠ 123 := by decide
  show String.mk (pyFormatGo errMsgTemplate.data false args) = errMsgTemplate
  rw [pyFormatGo_no_fields _ _ h]

/-- C2: `determine_format` returns the first element of the fixed
preference order — `image/svg+xml`, then `application/pdf` only when
cairosvg imported, then `image/png` — that is a member of the supported
list; the result depends only on membership in the supported list, not on
its order; and it is `none` exactly when no preferred format is a member. -/
theorem c2_determine_format_preference (cairo : Bool) (supported : List String) :
    determine_format cairo supported = determine_format_pref_spec cairo supported
    ∧ (∀ supported2 : List String, (∀ f, f ∈ supported ↔ f ∈ supported2) →
        determine_format cairo supported = determine_format cairo supported2)
    ∧ (determine_format cairo supported = none ↔
        ∀ f ∈ preferred_formats cairo, f ∉ supported) := by
  refine ⟨determine_format_eq_pref_spec _ _, ?_, determine_format_none_iff _ _⟩
  intro s2 hmem
  rw [determine_format_eq_pref_spec, determine_format_eq_pref_spec]
  simp only [determine_format_pref_spec, hmem]

/-- C6: the raw-form directive stores the newline-joined body verbatim,
the wrapped-form directive stores exactly `msc \x7b\n<body>\n\x7d\n`, each
producing exactly one placeholder node; in particular body `X\nY` yields
`X\nY` and `msc \x7b\nX\nY\n\x7d\n`. -/
theorem c6_directive_bodies (content : List String) :
    Mscgen_run content = [⟨String.intercalate "\n" content⟩]
    ∧ MscgenSimple_run content =
        [⟨"msc \x7b\n" ++ String.intercalate "\n" content ++ "\n\x7d\n"⟩]
    ∧ (Mscgen_run content).length = 1
    ∧ (MscgenSimple_run content).length = 1
    ∧ Mscgen_run ["X", "Y"] = [⟨"X\nY"⟩]
    ∧ MscgenSimple_run ["X", "Y"] = [⟨"msc \x7b\nX\nY\n\x7d\n"⟩] :=
  ⟨rfl, rfl, rfl, rfl, rfl, rfl⟩

theorem render_msc_native_popen (env : Env) (cfg : Config) (code fmt : String) :
    (render_msc_native env cfg code fmt).popenCalls = [mscgenArgv cfg fmt] := by
  simp only [render_msc_native]
  cases h : env.spawn (mscgenArgv cfg fmt) with
  | oserror => rfl
  | ok res =>
    cases henc : latin1Encode code with
    | none => rfl
    | some bytes => by_cases hrc : res.returncode ≠ 0 <;> simp [hrc]

theorem render_msc_native_ok (env : Env) (cfg : Config) (code fmt : String)
    (res : ProcResult)
    (hspawn : env.spawn (mscgenArgv cfg fmt) = ProcSpawn.ok res)
    (hrc : res.returncode = 0)
    (henc : ∀ c ∈ code.data, c.toNat < 256) :
    (render_msc_native env cfg code fmt).result = Except.ok res.stdout
    ∧ (render_msc_native env cfg code fmt).fedStdin = some (code.data.map Char.toNat) := by
  have he : latin1Encode code = some (code.data.map Char.toNat) := by
    rw [latin1Encode, if_pos henc]
  simp [render_msc_native, hspawn, he, hrc]

theorem render_msc_native_ok_encodable (env : Env) (cfg : Config) (code fmt : String)
    (bs : List Nat)
    (h : (render_msc_native env cfg code fmt).result = Except.ok bs) :
    ∀ c ∈ code.data, c.toNat < 256 := by
  by_cases hball : ∀ c ∈ code.data, c.toNat < 256
  · exact hball
  · exfalso
    have hnone : latin1Encode code = none := by rw [latin1Encode, if_neg hball]
    simp only [render_msc_native, hnone] at h
    cases hsp : env.spawn (mscgenArgv cfg fmt) <;> rw [hsp] at h <;> simp_all

theorem render_msc_other_fmt (env : Env) (cfg : Config) (code outpath uuid : String)
    (fmt : Option String)
    (h1 : fmt ≠ some "image/png") (h2 : fmt ≠ some "image/svg+xml")
    (h3 : fmt ≠ some "application/pdf") :
    (render_msc env cfg code outpath uuid fmt).popenCalls = [mscgenArgv cfg "svg"]
    ∧ (render_msc env cfg code outpath uuid fmt).filesWritten = []
    ∧ (render_msc env cfg code outpath uuid fmt).result =
        (match (render_msc_native env cfg code "svg").result with
         | Except.error e => Except.error e
         | Except.ok _ => Except.error (PyError.nameError "MscGenError")) := by
  simp only [render_msc, if_neg h1]
  cases hres : (render_msc_native env cfg code "svg").result with
  | error e => simp [hres, render_msc_native_popen]
  | ok svg => simp [hres, if_neg h2, if_neg h3, render_msc_native_popen]

/-- C7: when the subprocess exits with status zero, `render_msc_native`
returns exactly the stdout bytes, untransformed; and for the `image/png`
and `image/svg+xml` formats `render_msc` writes exactly those bytes to the
output file. -/
theorem c7_success_bytes (env : Env) (cfg : Config) (code outpath uuid : String)
    (res : ProcResult) (bs : List Nat)
    (hpng : env.spawn (mscgenArgv cfg "png") = ProcSpawn.ok res)
    (hsvg : env.spawn (mscgenArgv cfg "svg") = ProcSpawn.ok res)
    (hrc : res.returncode = 0) (hout : res.stdout = bs)
    (henc : ∀ c ∈ code.data, c.toNat < 256) :
    (render_msc_native env cfg code "png").result = Except.ok bs
    ∧ (render_msc_native env cfg code "svg").result = Except.ok bs
    ∧ (render_msc env cfg code outpath uuid (some "image/png")).filesWritten
        = [(pathJoin outpath ("mscgen-" ++ uuid ++ ".png"), bs)]
    ∧ (render_msc env cfg code outpath uuid (some "image/svg+xml")).filesWritten
        = [(pathJoin outpath ("mscgen-" ++ uuid ++ ".svg"), bs)] := by
  have hpngN : (render_msc_native env cfg code "png").result = Except.ok bs := by
    rw [(render_msc_native_ok env cfg code "png" res hpng hrc henc).1, hout]
  have hsvgN : (render_msc_native env cfg code "svg").result = Except.ok bs := by
    rw [(render_msc_native_ok env cfg code "svg" res hsvg hrc henc).1, hout]
  refine ⟨hpngN, hsvgN, ?_, ?_⟩
  · simp [render_msc, hpngN]
  · rw [render_msc, if_neg (by decide)]
    simp [hsvgN]

/-- Closed instance of `c7_success_bytes`: a renderer succeeding with
stdout `[7]` writes exactly `[7]` to the svg output file. -/
theorem c7_success_bytes_witness :
    (render_msc okEnv plainConfig "a->b;" "/out" "u" (some "image/svg+xml")).filesWritten
      = [(pathJoin "/out" ("mscgen-" ++ "u" ++ ".svg"), [7])] :=
  (c7_success_bytes okEnv plainConfig "a->b;" "/out" "u" ⟨0, [7], ""⟩ [7]
    rfl rfl rfl rfl (by decide)).2.2.2

/-- C8: the bytes fed to the renderer's stdin are the ISO-8859-1 encoding
of the diagram source — one byte per character, the character's code
point — and that encoding differs from UTF-8 (witnessed by a string on
which the two encodings disagree). -/
theorem c8_stdin_latin1 (env : Env) (cfg : Config) (code fmt : String)
    (res : ProcResult) (bs : List Nat)
    (hspawn : env.spawn (mscgenArgv cfg fmt) = ProcSpawn.ok res)
    (henc : latin1Encode code = some bs) :
    (render_msc_native env cfg code fmt).fedStdin = some bs
    ∧ bs = code.data.map Char.toNat
    ∧ ∃ s : String, latin1Encode s ≠ some (utf8Encode s) := by
  have hball : ∀ c ∈ code.data, c.toNat < 256 := by
    by_contra hc
    rw [latin1Encode, if_neg hc] at henc
    exact Option.noConfusion henc
  have hbs : bs = code.data.map Char.toNat := by
    rw [latin1Encode, if_pos hball] at henc
    exact (Option.some_inj.mp henc).symm
  refine ⟨?_, hbs, ⟨"é", by decide⟩⟩
  simp only [render_msc_native, hspawn, henc]
  by_cases hrc : res.returncode ≠ 0 <;> simp [hrc]

/-- Closed instance of `c8_stdin_latin1`: source `a->b;` is fed to stdin
as its ISO-8859-1 bytes. -/
theorem c8_stdin_latin1_witness :
    (render_msc_native okEnv plainConfig "a->b;" "svg").fedStdin
      = some [97, 45, 62, 98, 59] :=
  (c8_stdin_latin1 okEnv plainConfig "a->b;" "svg" ⟨0, [7], ""⟩
    [97, 45, 62, 98, 59] rfl (by decide)).1

/-- C9: for a format outside `image/png`, `image/svg+xml`,
`application/pdf` — the `None` of failed negotiation included — `render_msc`
still spawns the renderer once, requesting svg, and then raises `NameError`
for the undefined name `MscGenError`, writing no file. -/
theorem c9_invalid_format_nameerror (env : Env) (cfg : Config)
    (code outpath uuid : String) (fmt : Option String) (res : ProcResult)
    (h1 : fmt ≠ some "image/png") (h2 : fmt ≠ some "image/svg+xml")
    (h3 : fmt ≠ some "application/pdf")
    (hspawn : env.spawn (mscgenArgv cfg "svg") = ProcSpawn.ok res)
    (hrc : res.returncode = 0)
    (henc : ∀ c ∈ code.data, c.toNat < 256) :
    (render_msc env cfg code outpath uuid fmt).popenCalls = [mscgenArgv cfg "svg"]
    ∧ (render_msc env cfg code outpath uuid fmt).result
        = Except.error (PyError.nameError "MscGenError")
    ∧ (render_msc env cfg code outpath uuid fmt).filesWritten = [] := by
  obtain ⟨hp, hf, hr⟩ := render_msc_other_fmt env cfg code outpath uuid fmt h1 h2 h3
  refine ⟨hp, ?_, hf⟩
  rw [hr, (render_msc_native_ok env cfg code "svg" res hspawn hrc henc).1]

/-- Closed instance of `c9_invalid_format_nameerror` at `fmt = none`. -/
theorem c9_invalid_format_nameerror_witness :
    (render_msc okEnv plainConfig "a->b;" "/out" "u" none).result
      = Except.error (PyError.nameError "MscGenError") :=
  (c9_invalid_format_nameerror okEnv plainConfig "a->b;" "/out" "u" none ⟨0, [7], ""⟩
    (by decide) (by decide) (by decide) rfl rfl (by decide)).2.1

/-- C10: a source containing a character outside ISO-8859-1 makes
`render_msc_native` raise `UnicodeEncodeError` (not the renderer-specific
error) with nothing fed to stdin, and a successful native render implies
every character of the source fit in ISO-8859-1. -/
theorem c10_unicode_encode_error (env : Env) (cfg : Config) (code fmt : String)
    (res : ProcResult)
    (hspawn : env.spawn (mscgenArgv cfg fmt) = ProcSpawn.ok res)
    (hbad : ∃ c ∈ code.data, 256 ≤ c.toNat) :
    (render_msc_native env cfg code fmt).result = Except.error PyError.unicodeEncodeError
    ∧ (render_msc_native env cfg code fmt).fedStdin = none
    ∧ ∀ code2 bs, (render_msc_native env cfg code2 fmt).result = Except.ok bs →
        ∀ c ∈ code2.data, c.toNat < 256 := by
  have hnone : latin1Encode code = none := by
    obtain ⟨c, hc, h256⟩ := hbad
    rw [latin1Encode, if_neg]
    intro hall
    exact absurd (hall c hc) (by omega)
  refine ⟨?_, ?_, fun code2 bs h => render_msc_native_ok_encodable env cfg code2 fmt bs h⟩
  · simp [render_msc_native, hspawn, hnone]
  · simp [render_msc_native, hspawn, hnone]

/-- Closed instance of `c10_unicode_encode_error` at the source `α`
(code point 945, outside ISO-8859-1). -/
theorem c10_unicode_encode_error_witness :
    (render_msc_native okEnv plainConfig "α" "svg").result
      = Except.error PyError.unicodeEncodeError :=
  (c10_unicode_encode_error okEnv plainConfig "α" "svg" ⟨0, [7], ""⟩
    rfl (by decide)).1

/-- C1 (evaluation at the failing input): with a renderer that exits 1 and
writes `bad syntax` to stderr, the raised `MscgenError`'s message is the
unchanged literal template — `str.format` on the %-style template ignores
its arguments — so it contains neither the stderr text nor the diagram
source, though indeed no file is written; and a `Popen` failure is
re-raised as the bare `OSError`, not as `MscgenError`. -/
theorem c1_renderer_failure_message :
    (render_msc badSyntaxEnv plainConfig "a->b;" "/out" "u" (some "image/svg+xml")).result
      = Except.error (PyError.mscgenError errMsgTemplate)
    ∧ (render_msc badSyntaxEnv plainConfig "a->b;" "/out" "u"
        (some "image/svg+xml")).filesWritten = []
    ∧ ¬ List.IsInfix "bad syntax".data errMsgTemplate.data
    ∧ ¬ List.IsInfix "a->b;".data errMsgTemplate.data
    ∧ (render_msc_native oserrorEnv plainConfig "a->b;" "svg").result
        = Except.error PyError.osError :=
  ⟨rfl, rfl, by decide, by decide, rfl⟩

/-- C3 is refuted: with `mscgen_js` set, the LaTeX visitor still spawns a
renderer subprocess for the diagram, so renderer invocations are not
suppressed regardless of output kind. -/
theorem c3_js_counterexample :
    jsConfig.mscgen_js ≠ none
    ∧ (latex_visit_mscgen okEnv jsConfig pngBuilder "a->b;" "u").popenCalls ≠ [] :=
  ⟨by decide, by decide⟩

/-- C3 as amended: with `mscgen_js` set, the HTML visitor spawns no
renderer, writes no file and emits the script container holding the
escaped source; the LaTeX visitor behaves exactly as with `mscgen_js`
unset (it never consults it). -/
theorem c3_js_mode (env : Env) (cfg : Config) (b : Builder) (code uuid : String)
    (h : cfg.mscgen_js ≠ none) :
    (html_visit_mscgen env cfg b code uuid).popenCalls = []
    ∧ (html_visit_mscgen env cfg b code uuid).filesWritten = []
    ∧ (html_visit_mscgen env cfg b code uuid).body
        = [starttag "script" [("data-named-style", "classic"), ("type", "text/x-mscgen")],
           encode code, "</script>"]
    ∧ latex_visit_mscgen env cfg b code uuid
        = latex_visit_mscgen env ⟨cfg.mscgen, cfg.mscgen_args, none⟩ b code uuid := by
  have hh : html_visit_mscgen env cfg b code uuid = render_msc_html_js code := by
    simp [html_visit_mscgen, h]
  rw [hh]
  exact ⟨rfl, rfl, rfl, rfl⟩

/-- Closed instance of `c3_js_mode`: the HTML visitor with `mscgen_js` set
makes no `Popen` call. -/
theorem c3_js_mode_witness :
    (html_visit_mscgen okEnv jsConfig pngBuilder "a->b;" "u").popenCalls = [] :=
  (c3_js_mode okEnv jsConfig pngBuilder "a->b;" "u" (by decide)).1

theorem render_msc_ok_bname (env : Env) (cfg : Config) (code outpath uuid : String)
    (fmt : Option String) (fn ext : String)
    (h : (render_msc env cfg code outpath uuid fmt).result = Except.ok (fn, ext)) :
    fn = "mscgen-" ++ uuid := by
  simp only [render_msc] at h
  by_cases h1 : fmt = some "image/png"
  · rw [if_pos h1] at h
    rcases hres : (render_msc_native env cfg code "png").result with e | png <;>
      rw [hres] at h <;> simp_all
  · rw [if_neg h1] at h
    rcases hres : (render_msc_native env cfg code "svg").result with e | svg <;>
      rw [hres] at h
    · simp_all
    · dsimp only at h
      by_cases h2 : fmt = some "image/svg+xml"
      · rw [if_pos h2] at h
        simp_all
      · rw [if_neg h2] at h
        by_cases h3 : fmt = some "application/pdf"
        · rw [if_pos h3] at h
          simp_all
        · rw [if_neg h3] at h
          simp_all

/-- C4 is refuted: the include-graphics line the LaTeX visitor emits
references the bare generated basename — nowhere does the absolute output
directory appear in it — and its text is not of the claimed shape
`\noindent\sphinxincludegraphics\x7b<path>\x7d.<ext>` (the extension sits
inside the outer brace group, and the argument is not absolute). -/
theorem c4_latex_counterexample :
    (latex_visit_mscgen okEnv plainConfig svgBuilder "a->b;" "u").body
      = ["\n\\noindent\\sphinxincludegraphics\x7b\x7bmscgen-u\x7d.svg\x7d\n"]
    ∧ "\n\\noindent\\sphinxincludegraphics\x7b\x7bmscgen-u\x7d.svg\x7d\n"
        ≠ "\n\\noindent\\sphinxincludegraphics\x7b/build/latex/mscgen-u\x7d.svg\n"
    ∧ ¬ List.IsInfix "/build/latex".data
        "\n\\noindent\\sphinxincludegraphics\x7b\x7bmscgen-u\x7d.svg\x7d\n".data :=
  ⟨rfl, by decide, by decide⟩

/-- C4 as amended: the HTML `img` src is the basename joined under the
image path prefix (a relative reference), while the LaTeX visitor emits
`\noindent\sphinxincludegraphics\x7b\x7b<basename>\x7d.<ext>\x7d` where
the basename `mscgen-<uuid>` carries no directory component at all (it is
resolved relative to the output directory, not absolute). -/
theorem c4_reference_paths (env : Env) (cfg : Config) (b : Builder)
    (code uuid fn ext : String)
    (hjs : cfg.mscgen_js = none)
    (hhtml : (render_msc env cfg code (pathJoin b.outdir (effectiveImgpath b)) uuid
        (determine_format env.cairosvg_available b.supported_image_types)).result
        = Except.ok (fn, ext))
    (hlatex : (render_msc env cfg code b.outdir uuid
        (determine_format env.cairosvg_available b.supported_image_types)).result
        = Except.ok (fn, ext)) :
    (html_visit_mscgen env cfg b code uuid).body
      = [starttag "p" [("class", "mscgen")],
         "<img src=\"" ++ pathJoin (effectiveImgpath b) fn ++ "." ++ ext ++ "\" alt=\""
           ++ (encode code).trim ++ "\"/>\n",
         "</p>\n"]
    ∧ (latex_visit_mscgen env cfg b code uuid).body
        = ["\n\\noindent\\sphinxincludegraphics\x7b\x7b" ++ fn ++ "\x7d." ++ ext ++ "\x7d\n"]
    ∧ fn = "mscgen-" ++ uuid := by
  have hbn : fn = "mscgen-" ++ uuid :=
    render_msc_ok_bname env cfg code b.outdir uuid _ fn ext hlatex
  refine ⟨?_, ?_, hbn⟩
  · rw [html_visit_mscgen, if_neg (by simp [hjs])]
    simp only [render_msc_html, hhtml]
  · rw [latex_visit_mscgen, render_msc_latex]
    simp only [hlatex]

/-- Closed instance of `c4_reference_paths`: with no image subdirectory the
HTML src is `./mscgen-u.svg`, a relative reference. -/
theorem c4_reference_paths_witness :
    (html_visit_mscgen okEnv plainConfig svgBuilder "a->b;" "u").body
      = [starttag "p" [("class", "mscgen")],
         "<img src=\"" ++ pathJoin (effectiveImgpath svgBuilder) "mscgen-u" ++ "." ++ "svg"
           ++ "\" alt=\"" ++ (encode "a->b;").trim ++ "\"/>\n",
         "</p>\n"] :=
  (c4_reference_paths okEnv plainConfig svgBuilder "a->b;" "u" "mscgen-u" "svg"
    rfl rfl rfl).1

/-- C5: when no preferred format is a member of the supported list,
`determine_format` returns `none`, and `render_msc` called with that
`none` raises an exception and writes no file. -/
theorem c5_no_overlap_fatal (env : Env) (cfg : Config) (code outpath uuid : String)
    (supported : List String)
    (h : ∀ f ∈ preferred_formats env.cairosvg_available, f ∉ supported) :
    determine_format env.cairosvg_available supported = none
    ∧ (render_msc env cfg code outpath uuid
        (determine_format env.cairosvg_available supported)).filesWritten = []
    ∧ ∃ e, (render_msc env cfg code outpath uuid
        (determine_format env.cairosvg_available supported)).result = Except.error e := by
  have hn : determine_format env.cairosvg_available supported = none :=
    (determine_format_none_iff _ _).mpr h
  obtain ⟨-, hf, hr⟩ :=
    render_msc_other_fmt env cfg code outpath uuid none (by simp) (by simp) (by simp)
  refine ⟨hn, ?_, ?_⟩
  · rw [hn]
    exact hf
  · rw [hn, hr]
    cases hres : (render_msc_native env cfg code "svg").result with
    | error e => exact ⟨e, rfl⟩
    | ok svg => exact ⟨PyError.nameError "MscGenError", rfl⟩

/-- Closed instance of `c5_no_overlap_fatal`: a supported list disjoint
from every preferred format negotiates to `none`. -/
theorem c5_no_overlap_fatal_witness :
    determine_format okEnv.cairosvg_available ["text/html"] = none :=
  (c5_no_overlap_fatal okEnv plainConfig "a->b;" "/out" "u" ["text/html"] (by decide)).1

end Mscgen
